import Mathlib

/-!
Verification of the orbital-derivation and classification pipeline of the
Near-Earth Comets Explorer (`gg.py`), as a shallow embedding.

Pandas/NumPy float semantics are modelled as follows: a missing or
unparsable cell, and any NaN produced downstream, is `none` in an
`Option`; finite float values are modelled as exact rationals (`ℚ`)
where the source computes with rational operations only, and as reals
(`ℝ`) where the source applies `sqrt`/`cos`/`sin`/`π`.  A float
division by zero produces a non-finite value (`±inf`); since every
claim treats non-finite results as "undefined", `none` also stands for
those, with a note at each definition where it matters.
-/

namespace NEC

/-- One raw JSON cell of the NASA dataset, as seen by
`pd.to_numeric(col, errors='coerce')` (gg.py line 91): either text that
parses as a number (represented by its value), text that does not, or a
missing value. -/
inductive RawVal where
  | num (v : ℚ)
  | nonNumeric (s : String)
  | null

/-- The per-cell effect of `pd.to_numeric(..., errors='coerce')`
(gg.py lines 89–92): a numeric cell keeps its value, a non-numeric or
missing cell becomes NaN (`none`), never a default number. -/
def parseVal : RawVal → Option ℚ
  | .num v => some v
  | .nonNumeric _ => none
  | .null => none

/-- One raw record of the dataset before numeric conversion. -/
structure RawComet where
  object : String
  e : RawVal
  i_deg : RawVal
  w_deg : RawVal
  node_deg : RawVal
  q_au_1 : RawVal
  q_au_2 : RawVal
  p_yr : RawVal
  moid_au : RawVal
  epoch_tdb : RawVal

/-- One record after the column-wise numeric conversion of
`fetch_comet_data` (gg.py lines 89–92): every numeric field is either a
value or NaN (`none`). -/
structure Comet where
  object : String
  e : Option ℚ
  i_deg : Option ℚ
  w_deg : Option ℚ
  node_deg : Option ℚ
  q_au_1 : Option ℚ
  q_au_2 : Option ℚ
  p_yr : Option ℚ
  moid_au : Option ℚ
  epoch_tdb : Option ℚ

/-- The column-wise conversion loop of gg.py lines 89–92: each field is
converted by `parseVal` independently of every other field. -/
def convert (r : RawComet) : Comet :=
  { object := r.object
    e := parseVal r.e
    i_deg := parseVal r.i_deg
    w_deg := parseVal r.w_deg
    node_deg := parseVal r.node_deg
    q_au_1 := parseVal r.q_au_1
    q_au_2 := parseVal r.q_au_2
    p_yr := parseVal r.p_yr
    moid_au := parseVal r.moid_au
    epoch_tdb := parseVal r.epoch_tdb }

/-- The eccentricity filter of gg.py line 110:
`df[(df['e'] >= e_min) & (df['e'] <= e_max)]`.  A NaN eccentricity
compares `False` on both sides, so the row is dropped. -/
def keep (emin emax : ℚ) (r : Comet) : Bool :=
  match r.e with
  | some v => decide (emin ≤ v) && decide (v ≤ emax)
  | none => false

/-- gg.py line 117: `df_filtered['a'] = df_filtered['q_au_1'] / (1 - df_filtered['e'])`.
A NaN operand propagates.  For `e = 1` the float division by zero
yields a non-finite value (`±inf`, or NaN at `q = 0`), modelled as
`none`: no finite real value exists. -/
def semiMajorAxis (q e : Option ℚ) : Option ℚ :=
  match q, e with
  | some qv, some ev => if ev = 1 then none else some (qv / (1 - ev))
  | _, _ => none

/-- gg.py line 118:
`Tisserand = 3/a + 2*((1 - e**2) * a / 5.2).pow(0.5) * np.cos(np.radians(i_deg))`.
NaN operands propagate (in particular a non-finite `a`, see
`semiMajorAxis`); `(…).pow(0.5)` of a negative float is NaN, hence the
sign guard; `3/a` at `a = 0` would be non-finite, hence the zero guard
(reachable only at `q = 0`).  `np.radians(x) = x*π/180`, and
`5.2 = 26/5`. -/
noncomputable def tisserand (q e i : Option ℚ) : Option ℝ :=
  match semiMajorAxis q e, e, i with
  | some av, some ev, some iv =>
    if av = 0 then none
    else if (1 - ev ^ 2) * av / (26 / 5) < 0 then none
    else some (3 / (av : ℝ) +
      2 * Real.sqrt ((((1 - ev ^ 2) * av / (26 / 5) : ℚ)) : ℝ) *
        Real.cos ((iv : ℝ) * Real.pi / 180))
  | _, _, _ => none

/-- Python float comparison `c < t` where `t` may be NaN (`none`):
every comparison against NaN is `False`. -/
noncomputable def floatGT (t : Option ℝ) (c : ℝ) : Bool :=
  match t with
  | some v => decide (c < v)
  | none => false

/-- Python float comparison `t ≤ c` where `t` may be NaN (`none`):
every comparison against NaN is `False`. -/
noncomputable def floatLE (t : Option ℝ) (c : ℝ) : Bool :=
  match t with
  | some v => decide (v ≤ c)
  | none => false

/-- The family-classification lambda of gg.py line 230:
`lambda t: "Encke-type" if t > 3 else ("Jupiter-family" if 2 < t <= 3 else "Halley-type")`.
The chained Python comparison `2 < t <= 3` is `(2 < t) and (t <= 3)`. -/
noncomputable def classifyFamily (t : Option ℝ) : String :=
  if floatGT t 3 then "Encke-type"
  else if floatGT t 2 && floatLE t 3 then "Jupiter-family"
  else "Halley-type"

/-- Gregorian calendar year of the day lying `z` days after 1970-01-01
(the year component of the standard civil-from-days conversion used by
the datetime library behind gg.py line 113). -/
def yearOfEpochDay (z : ℤ) : ℤ :=
  let days := z + 719468
  let era := Int.fdiv days 146097
  let doe := days - era * 146097
  let yoe := (doe - doe / 1460 + doe / 36524 - doe / 146096) / 365
  let y := yoe + era * 400
  let doy := doe - (365 * yoe + yoe / 4 - yoe / 100)
  let mp := (5 * doy + 2) / 153
  let m := if mp < 10 then mp + 3 else mp - 9
  if m ≤ 2 then y + 1 else y

/-- gg.py lines 113–114: `discovery_date = to_datetime('2000-01-01') +
to_timedelta(epoch_tdb, unit='D')`, `discovery_year = discovery_date.dt.year`.
2000-01-01 is 10957 days after 1970-01-01; a fractional day offset
keeps the year of the enclosing day (`⌊·⌋`).  A NaN epoch gives NaT,
whose year is NaN (`none`). -/
def discoveryYear (epoch : Option ℚ) : Option ℤ :=
  epoch.map (fun d => yearOfEpochDay (⌊d⌋ + 10957))

/-- gg.py lines 312–314:
`orbital_energy = -G * M_sun / (2 * a * 1.496e11)` with
`G = 6.67430e-11` and `M_sun = 1.98847e30`.  A NaN `a` propagates;
a non-finite `a` (see `semiMajorAxis`) is already `none` here. -/
def orbitalEnergy (a : Option ℚ) : Option ℚ :=
  a.map (fun av =>
    -(667430 / 10 ^ 16 * (198847 * 10 ^ 25)) / (2 * av * (1496 * 10 ^ 8)))

/-- The derived columns added to one filtered row by gg.py lines
113–118, 230 and 314. -/
structure Derived where
  src : Comet
  discovery_year : Option ℤ
  a : Option ℚ
  Tisserand : Option ℝ
  Family : String
  orbital_energy : Option ℚ

/-- Row-wise derivation: every derived column of gg.py lines 113–118,
230 and 314 is computed from the row's own raw fields, each column by
its own formula. -/
noncomputable def derive (r : Comet) : Derived :=
  { src := r
    discovery_year := discoveryYear r.epoch_tdb
    a := semiMajorAxis r.q_au_1 r.e
    Tisserand := tisserand r.q_au_1 r.e r.i_deg
    Family := classifyFamily (tisserand r.q_au_1 r.e r.i_deg)
    orbital_energy := orbitalEnergy (semiMajorAxis r.q_au_1 r.e) }

/-- The whole pipeline on one fetched collection: the eccentricity
filter of gg.py line 110 followed by the row-wise derivations. -/
noncomputable def deriveAll (l : List Comet) (emin emax : ℚ) : List Derived :=
  (l.filter (keep emin emax)).map derive

/-- gg.py line 214: `theta = np.linspace(0, 2*np.pi, 1000)` — `n`
evenly spaced samples running from `0` to `2π` with both endpoints
included (NumPy's default `endpoint=True`). -/
noncomputable def linspace2pi (n : ℕ) : List ℝ :=
  (List.range n).map (fun k : ℕ => 2 * Real.pi * (k : ℝ) / ((n : ℝ) - 1))

/-- gg.py line 215: `r = a * (1 - e**2) / (1 + e * np.cos(theta))`. -/
noncomputable def orbitRadius (a e θ : ℝ) : ℝ :=
  a * (1 - e ^ 2) / (1 + e * Real.cos θ)

/-- gg.py lines 215–220: one 3D point of the orbit trace at true
anomaly `θ`, with `np.radians(x) = x*π/180` applied to the inclination,
argument of perihelion and ascending node. -/
noncomputable def orbitPoint (a e i w node θ : ℝ) : ℝ × ℝ × ℝ :=
  let r := orbitRadius a e θ
  let iR := i * Real.pi / 180
  let wR := w * Real.pi / 180
  let nR := node * Real.pi / 180
  (r * (Real.cos nR * Real.cos (θ + wR) -
        Real.sin nR * Real.sin (θ + wR) * Real.cos iR),
   r * (Real.sin nR * Real.cos (θ + wR) +
        Real.cos nR * Real.sin (θ + wR) * Real.cos iR),
   r * Real.sin (θ + wR) * Real.sin iR)

/-- The full orbit trace of gg.py lines 214–220: the point formula
mapped over the `θ` samples.  The source has no validity guard: the
trace is built from whatever `a`, `e`, `i`, `w`, `node` the row holds. -/
noncomputable def orbitPath (a e i w node : ℝ) (n : ℕ) : List (ℝ × ℝ × ℝ) :=
  (linspace2pi n).map (orbitPoint a e i w node)

/-- A record with `e = 1` (parabolic): its semi-major axis is non-finite
and its Tisserand value is NaN. -/
def cometE1 : Comet :=
  ⟨"1P-test", some 1, some 10, some 20, some 30, some (3/5), none,
    some 76, some (1/10), some 18000⟩

/-- A raw record every numeric field of which fails to parse, except the
epoch. -/
def rawA : RawComet :=
  ⟨"A", .nonNumeric "x", .null, .null, .null, .nonNumeric "oops", .null,
    .null, .null, .num 5⟩

/-- A raw record every numeric field of which parses, with the same
epoch as `rawA`. -/
def rawB : RawComet :=
  ⟨"B", .num (1/2), .num 2, .num 3, .num 4, .num 5, .num 6, .num 7,
    .num 8, .num 5⟩

/- ## Helper lemmas -/

lemma classifyFamily_some (t : ℝ) :
    classifyFamily (some t) =
      if 3 < t then "Encke-type"
      else if 2 < t ∧ t ≤ 3 then "Jupiter-family" else "Halley-type" := by
  simp only [classifyFamily, floatGT, floatLE, Bool.and_eq_true, decide_eq_true_eq]

lemma tisserand_of_sma (q e i av : ℚ)
    (h : semiMajorAxis (some q) (some e) = some av) :
    tisserand (some q) (some e) (some i) =
      if av = 0 then none
      else if (1 - e ^ 2) * av / (26 / 5) < 0 then none
      else some (3 / (av : ℝ) +
        2 * Real.sqrt ((((1 - e ^ 2) * av / (26 / 5) : ℚ)) : ℝ) *
          Real.cos ((i : ℝ) * Real.pi / 180)) := by
  unfold tisserand
  rw [h]

lemma tisserand_of_sma_none (q e i : Option ℚ)
    (h : semiMajorAxis q e = none) : tisserand q e i = none := by
  unfold tisserand
  rw [h]

lemma map_src_deriveAll (l : List Comet) (emin emax : ℚ) :
    (deriveAll l emin emax).map Derived.src = l.filter (keep emin emax) := by
  unfold deriveAll
  rw [List.map_map]
  rw [show Derived.src ∘ derive = id from rfl, List.map_id]

lemma orbitPath_length (a e i w node : ℝ) (n : ℕ) :
    (orbitPath a e i w node n).length = n := by
  unfold orbitPath linspace2pi
  rw [List.length_map, List.length_map, List.length_range]

lemma linspace2pi_1000 :
    linspace2pi 1000 =
      (List.range 1000).map (fun k : ℕ => 2 * Real.pi * (k : ℝ) / 999) := by
  unfold linspace2pi
  simp only [show ((1000 : ℕ) : ℝ) - 1 = 999 by norm_num]

lemma linspace2pi_head : (linspace2pi 1000).head? = some 0 := by
  rw [linspace2pi_1000]
  rw [show (1000 : ℕ) = 999 + 1 from rfl, List.range_succ_eq_map]
  simp

lemma linspace2pi_getLast : (linspace2pi 1000).getLast? = some (2 * Real.pi) := by
  rw [linspace2pi_1000]
  rw [show (1000 : ℕ) = 999 + 1 from rfl, List.range_succ, List.map_append]
  rw [show List.map (fun k : ℕ => 2 * Real.pi * (k : ℝ) / 999) [999]
        = [2 * Real.pi * (999 : ℝ) / 999] by norm_num, List.getLast?_concat]
  norm_num

lemma zero_mem_linspace : (0 : ℝ) ∈ linspace2pi 1000 := by
  rw [linspace2pi_1000]
  exact List.mem_map.2 ⟨0, List.mem_range.2 (by norm_num), by norm_num⟩

lemma two_pi_mem_linspace : 2 * Real.pi ∈ linspace2pi 1000 := by
  rw [linspace2pi_1000]
  refine List.mem_map.2 ⟨999, List.mem_range.2 (by norm_num), ?_⟩
  norm_num

lemma orbitPoint_wrap (a e i w node : ℝ) :
    orbitPoint a e i w node (2 * Real.pi) = orbitPoint a e i w node 0 := by
  unfold orbitPoint orbitRadius
  simp [add_comm (2 * Real.pi), Real.cos_add_two_pi, Real.sin_add_two_pi,
    Real.cos_two_pi]

lemma orbitPath_closed (a e i w node : ℝ) :
    (orbitPath a e i w node 1000).head? =
      (orbitPath a e i w node 1000).getLast? := by
  unfold orbitPath
  rw [List.head?_map, List.getLast?_map, linspace2pi_head, linspace2pi_getLast]
  simp [orbitPoint_wrap]

lemma orbitRadius_pos (a e : ℝ) (ha : 0 < a) (he0 : 0 ≤ e) (he1 : e < 1)
    (θ : ℝ) : 0 < orbitRadius a e θ := by
  unfold orbitRadius
  have h1 : 0 < (1 - e) * (1 + e) := mul_pos (by linarith) (by linarith)
  have h2 : 0 < 1 - e ^ 2 := by nlinarith
  have h3 : e * (-1) ≤ e * Real.cos θ :=
    mul_le_mul_of_nonneg_left (Real.neg_one_le_cos θ) he0
  apply div_pos (by nlinarith) (by nlinarith)

/- ## Claims -/

/-- C1: the spec requires an undefined (NaN) Tisserand value to yield an
undefined classification, never a silent assignment to one of the three
categories.  The code violates this: every Python comparison against
NaN is `False`, so the lambda of gg.py line 230 falls through to its
final `else` and labels an undefined Tisserand `"Halley-type"` — shown
both at the lambda itself and through the full per-record pipeline on a
record with `e = 1` (undefined Tisserand). -/
theorem classifyFamily_undefined_slips_to_halley :
    classifyFamily none = "Halley-type" ∧
    (derive cometE1).Tisserand = none ∧
    (derive cometE1).Family = "Halley-type" := by
  refine ⟨rfl, ?_, ?_⟩
  · show tisserand (some (3/5)) (some 1) (some 10) = none
    exact tisserand_of_sma_none _ _ _ (by simp [semiMajorAxis])
  · show classifyFamily (tisserand (some (3/5)) (some 1) (some 10)) = "Halley-type"
    rw [tisserand_of_sma_none _ _ _ (by simp [semiMajorAxis])]
    rfl

/-- C2 (amended): for a hyperbolic record (`e > 1`, `q > 0`) the
semi-major axis is negative, yet the Tisserand value is defined — the
square-root argument `(1 - e²)·a / 5.2` equals `q·(1 + e)/5.2 ≥ 0`, a
product of two negatives, so no NaN arises; the Tisserand value is
undefined when an input is missing or `e = 1` (non-finite `a`), not for
`e > 1`. -/
theorem tisserand_hyperbolic (q e i : ℚ) (hq : 0 < q) (he : 1 < e) :
    (∃ av, semiMajorAxis (some q) (some e) = some av ∧ av < 0) ∧
    (tisserand (some q) (some e) (some i)).isSome = true ∧
    tisserand (some q) (some 1) (some i) = none := by
  have hne : e ≠ 1 := ne_of_gt he
  have hsma : semiMajorAxis (some q) (some e) = some (q / (1 - e)) := by
    simp [semiMajorAxis, hne]
  have hav : q / (1 - e) < 0 := div_neg_of_pos_of_neg hq (by linarith)
  refine ⟨⟨q / (1 - e), hsma, hav⟩, ?_, ?_⟩
  · rw [tisserand_of_sma q e i _ hsma]
    have h0 : ¬ (q / (1 - e) = 0) := ne_of_lt hav
    have hs : ¬ ((1 - e ^ 2) * (q / (1 - e)) / (26 / 5) < 0) := by
      push_neg
      apply div_nonneg _ (by norm_num)
      have h1 : (1 - e ^ 2) < 0 := by nlinarith
      exact le_of_lt (mul_pos_of_neg_of_neg h1 hav)
    simp [h0, hs]
  · exact tisserand_of_sma_none _ _ _ (by simp [semiMajorAxis])

/-- C2 counterexample: at `q = 1`, `e = 2`, `i = 0` — a hyperbolic
record, where the claim requires an undefined Tisserand value — the
code produces a defined (real) value. -/
theorem tisserand_hyperbolic_cex :
    (tisserand (some 1) (some 2) (some 0)).isSome = true := by
  have hsma : semiMajorAxis (some 1) (some 2) = some (-1) := by
    norm_num [semiMajorAxis]
  rw [tisserand_of_sma 1 2 0 (-1) hsma]
  norm_num

/-- C2 witness: the amended theorem instantiated at `q = 1`, `e = 2`,
`i = 37`. -/
theorem tisserand_hyperbolic_witness :
    (0 : ℚ) < 1 ∧ (1 : ℚ) < 2 ∧
    (tisserand (some 1) (some 2) (some 37)).isSome = true :=
  ⟨by norm_num, by norm_num,
    (tisserand_hyperbolic 1 2 37 (by norm_num) (by norm_num)).2.1⟩

/-- C3: for a defined Tisserand value `t` the classification is
`"Encke-type"` iff `3 < t`, `"Jupiter-family"` iff `2 < t ≤ 3`, and
`"Halley-type"` iff `t ≤ 2`; the three categories are exhaustive, the
boundary `t = 3` is Jupiter-family and the boundary `t = 2` is
Halley-type. -/
theorem classifyFamily_boundary_semantics :
    (∀ t : ℝ,
      (classifyFamily (some t) = "Encke-type" ↔ 3 < t) ∧
      (classifyFamily (some t) = "Jupiter-family" ↔ 2 < t ∧ t ≤ 3) ∧
      (classifyFamily (some t) = "Halley-type" ↔ t ≤ 2) ∧
      (classifyFamily (some t) = "Encke-type" ∨
        classifyFamily (some t) = "Jupiter-family" ∨
        classifyFamily (some t) = "Halley-type")) ∧
    classifyFamily (some 3) = "Jupiter-family" ∧
    classifyFamily (some 2) = "Halley-type" := by
  refine ⟨fun t => ⟨?_, ?_, ?_, ?_⟩, ?_, ?_⟩
  · rw [classifyFamily_some]
    split_ifs with h1 h2
    · simp [h1]
    · simp [h1]
    · simp [h1]
  · rw [classifyFamily_some]
    split_ifs with h1 h2
    · constructor
      · intro h; exact absurd h (by decide)
      · rintro ⟨-, h2⟩; exact absurd h1 (by linarith)
    · simp [h2]
    · simp [h2]
  · rw [classifyFamily_some]
    split_ifs with h1 h2
    · constructor
      · intro h; exact absurd h (by decide)
      · intro h; linarith
    · constructor
      · intro h; exact absurd h (by decide)
      · intro h; exact absurd h2.1 (by linarith)
    · constructor
      · intro _
        push_neg at h1 h2
        rcases lt_or_le 2 t with h | h
        · exact absurd (h2 h) (by linarith)
        · exact h
      · intro _; rfl
  · rw [classifyFamily_some]
    split_ifs <;> tauto
  · rw [classifyFamily_some]; norm_num
  · rw [classifyFamily_some]; norm_num

/-- C4: for `q > 0` the semi-major axis `q / (1 - e)` is a defined
positive value for `0 ≤ e < 1`, undefined/non-finite (`none`, never a
numeric sentinel) for `e = 1`, and a defined negative value for
`e > 1`. -/
theorem semiMajorAxis_trichotomy (q e : ℚ) (hq : 0 < q) :
    (0 ≤ e → e < 1 →
      ∃ av, semiMajorAxis (some q) (some e) = some av ∧ 0 < av) ∧
    (e = 1 → semiMajorAxis (some q) (some e) = none) ∧
    (1 < e → ∃ av, semiMajorAxis (some q) (some e) = some av ∧ av < 0) := by
  refine ⟨fun h0 h1 => ⟨q / (1 - e), ?_, ?_⟩, fun h1 => ?_,
    fun h1 => ⟨q / (1 - e), ?_, ?_⟩⟩
  · simp [semiMajorAxis, ne_of_lt h1]
  · exact div_pos hq (by linarith)
  · simp [semiMajorAxis, h1]
  · simp [semiMajorAxis, ne_of_gt h1]
  · exact div_neg_of_pos_of_neg hq (by linarith)

/-- C4 witness: the trichotomy instantiated at `q = 3`, `e = 1`. -/
theorem semiMajorAxis_trichotomy_witness :
    (0 : ℚ) < 3 ∧ semiMajorAxis (some 3) (some 1) = none :=
  ⟨by norm_num, (semiMajorAxis_trichotomy 3 1 (by norm_num)).2.1 rfl⟩

/-- C5: the output of the pipeline is, record for record and in the
same relative order, exactly the input records whose eccentricity is
defined and lies in the inclusive range `[emin, emax]`; records with a
missing or out-of-range eccentricity are dropped entirely. -/
theorem deriveAll_eccentricity_filter (l : List Comet) (emin emax : ℚ) :
    (deriveAll l emin emax).map Derived.src = l.filter (keep emin emax) ∧
    (∀ r : Comet, r ∈ l.filter (keep emin emax) ↔
      r ∈ l ∧ ∃ v, r.e = some v ∧ emin ≤ v ∧ v ≤ emax) ∧
    ((deriveAll l emin emax).map Derived.src).Sublist l := by
  refine ⟨map_src_deriveAll l emin emax, fun r => ?_, ?_⟩
  · rw [List.mem_filter]
    refine and_congr_right fun _ => ?_
    unfold keep
    cases h : r.e with
    | none => simp
    | some v => simp [Bool.and_eq_true, decide_eq_true_eq]
  · rw [map_src_deriveAll l emin emax]
    exact List.filter_sublist l

/-- C6 (amended): the 3D-orbit loop of gg.py lines 204–222 performs no
geometry validation: even for inputs violating the spec's precondition
(`a ≤ 0` or `e ≥ 1`) it emits exactly 1000 formula-evaluated points —
there is no `InvalidOrbitGeometry` signal, and garbage coordinates are
not prevented. -/
theorem orbitPath_no_guard (a e i w node : ℝ) (_h : a ≤ 0 ∨ 1 ≤ e) :
    (orbitPath a e i w node 1000).length = 1000 :=
  orbitPath_length a e i w node 1000

/-- C6 counterexample: at `a = -1`, `e = 2` — inputs the claim says
must yield an `InvalidOrbitGeometry` signal and no points — the code
still produces its 1000 coordinate points. -/
theorem orbitPath_no_guard_cex :
    (orbitPath (-1) 2 0 0 0 1000).length = 1000 :=
  orbitPath_length (-1) 2 0 0 0 1000

/-- C6 witness: the amended theorem instantiated at `a = -2`, `e = 3`. -/
theorem orbitPath_no_guard_witness :
    ((-2 : ℝ) ≤ 0 ∨ (1 : ℝ) ≤ 3) ∧
    (orbitPath (-2) 3 5 5 5 1000).length = 1000 :=
  ⟨Or.inl (by norm_num), orbitPath_no_guard (-2) 3 5 5 5 (Or.inl (by norm_num))⟩

/-- C7 (amended): on a valid elliptical input the path has exactly 1000
points, with the true anomaly sampled uniformly over the closed
interval `[0, 2π]` — `θ_k = 2πk/999`, both endpoints included — so the
first and last points coincide and the rendered loop closes. -/
theorem orbitPath_sampling (a e i w node : ℝ) (_ha : 0 < a) (_he0 : 0 ≤ e)
    (_he1 : e < 1) :
    (orbitPath a e i w node 1000).length = 1000 ∧
    linspace2pi 1000 =
      (List.range 1000).map (fun k : ℕ => 2 * Real.pi * (k : ℝ) / 999) ∧
    (orbitPath a e i w node 1000).head? =
      (orbitPath a e i w node 1000).getLast? :=
  ⟨orbitPath_length a e i w node 1000, linspace2pi_1000,
    orbitPath_closed a e i w node⟩

/-- C7 counterexample: `2π` itself is among the sampled true anomalies
(`np.linspace(0, 2*np.pi, 1000)` includes its right endpoint), so the
claim's half-open sampling over `[0, 2π)` — excluding `2π` — is false. -/
theorem orbitPath_sampling_cex :
    2 * Real.pi ∈ linspace2pi 1000 ∧ ¬ 2 * Real.pi < 2 * Real.pi :=
  ⟨two_pi_mem_linspace, lt_irrefl _⟩

/-- C7 witness: the amended theorem instantiated at `a = 1`, `e = 0`. -/
theorem orbitPath_sampling_witness :
    (0 : ℝ) < 1 ∧ (orbitPath 1 0 0 0 0 1000).length = 1000 :=
  ⟨by norm_num, (orbitPath_sampling 1 0 0 0 0 (by norm_num) le_rfl (by norm_num)).1⟩

/-- C8: per-field failure isolation — an unparsable or missing cell
becomes `none` for that field only (never a default number), the
column conversion never drops or aborts a record, a record's
discovery year is unaffected by every other field (even when all of
them are unparsable), and an undefined Tisserand value leaves the other
derived fields of the same record intact. -/
theorem per_field_isolation :
    (∀ s, parseVal (RawVal.nonNumeric s) = none) ∧
    parseVal RawVal.null = none ∧
    (∀ l : List RawComet, (l.map convert).length = l.length) ∧
    (∀ r r' : RawComet, r.epoch_tdb = r'.epoch_tdb →
      (derive (convert r)).discovery_year =
        (derive (convert r')).discovery_year) ∧
    (∀ c : Comet, (derive c).Tisserand = none →
      (derive c).discovery_year = discoveryYear c.epoch_tdb ∧
      (derive c).a = semiMajorAxis c.q_au_1 c.e ∧
      (derive c).orbital_energy = orbitalEnergy (semiMajorAxis c.q_au_1 c.e)) := by
  refine ⟨fun s => rfl, rfl, fun l => List.length_map l convert,
    fun r r' h => ?_, fun c _ => ⟨rfl, rfl, rfl⟩⟩
  show discoveryYear (parseVal r.epoch_tdb) = discoveryYear (parseVal r'.epoch_tdb)
  rw [h]

/-- C8 witness: `rawA` (every field unparsable except the epoch) and
`rawB` (every field numeric) share an epoch, hence a discovery year. -/
theorem per_field_isolation_witness :
    rawA.epoch_tdb = rawB.epoch_tdb ∧
    (derive (convert rawA)).discovery_year =
      (derive (convert rawB)).discovery_year :=
  ⟨rfl, per_field_isolation.2.2.2.1 rawA rawB rfl⟩

/-- C9: the pipeline is a pure function — two invocations on the same
input collection and the same filter bounds give the same output (in
this embedding, definitionally) — and the output order follows the
input order: the source records of the output form a sublist (an
order-preserving selection) of the input. -/
theorem deriveAll_pure_deterministic (l : List Comet) (emin emax : ℚ) :
    deriveAll l emin emax = deriveAll l emin emax ∧
    ((deriveAll l emin emax).map Derived.src).Sublist l := by
  refine ⟨rfl, ?_⟩
  rw [map_src_deriveAll l emin emax]
  exact List.filter_sublist l

/-- C10: the sampled true anomalies include both `0` and `2π`, the
first and last points of the path are exactly equal (the closing point
is duplicated), and on a bound orbit (`a > 0`, `0 ≤ e < 1`) every
sampled radius `a(1 - e²)/(1 + e·cos θ)` is positive (and finite, being
a real number). -/
theorem orbitPath_endpoints (a e i w node : ℝ) (ha : 0 < a) (he0 : 0 ≤ e)
    (he1 : e < 1) :
    (0 : ℝ) ∈ linspace2pi 1000 ∧ 2 * Real.pi ∈ linspace2pi 1000 ∧
    (orbitPath a e i w node 1000).head? =
      (orbitPath a e i w node 1000).getLast? ∧
    ∀ θ ∈ linspace2pi 1000, 0 < orbitRadius a e θ :=
  ⟨zero_mem_linspace, two_pi_mem_linspace, orbitPath_closed a e i w node,
    fun θ _ => orbitRadius_pos a e ha he0 he1 θ⟩

/-- C10 witness: instantiated at `a = 1`, `e = 1/2`. -/
theorem orbitPath_endpoints_witness :
    (0 : ℝ) < 1 ∧
    (orbitPath 1 (1/2) 10 20 30 1000).head? =
      (orbitPath 1 (1/2) 10 20 30 1000).getLast? :=
  ⟨by norm_num,
    (orbitPath_endpoints 1 (1/2) 10 20 30 (by norm_num) (by norm_num)
      (by norm_num)).2.2.1⟩

end NEC
